import Mathlib

/-!
Shallow embedding of the subsidy-tracking server in src/server.js
(Express + MySQL). The three tables (users, vendors, progress_logs) become
lists of records, the connection pool's side effects become explicit state
passing, and each route handler becomes a pure function from the database
state and the decoded request to a response paired with the new state.
MySQL behaviour that the handlers rely on (UNIQUE keys, the role ENUM in
strict mode, FOREIGN KEY checks, SUM returning NULL on an empty row set,
TRUNCATE resetting AUTO_INCREMENT) is modelled inside the state operations.
-/

/-- JavaScript values as they arrive in an express JSON body. vundef stands
for an absent field (`req.body.x` when x is missing). Numbers are modelled
as integers: every numeric literal the routes handle is an integer. -/
inductive JSVal where
  | vstr (s : String)
  | vnum (n : Int)
  | vbool (b : Bool)
  | vnull
  | vundef
deriving DecidableEq

/-- JavaScript truthiness, as used by checks of the form `!field`. -/
def jsTruthy : JSVal → Bool
  | JSVal.vstr s => s != ""
  | JSVal.vnum n => n != 0
  | JSVal.vbool b => b
  | JSVal.vnull => false
  | JSVal.vundef => false

/-- JavaScript ToNumber coercion; none stands for NaN. The string case
covers the integer strings the routes see: empty or whitespace-free decimal
integers via String.toInt?, empty string coercing to 0. -/
def jsToNumber : JSVal → Option Int
  | JSVal.vstr s => if s = "" then some 0 else s.toInt?
  | JSVal.vnum n => some n
  | JSVal.vbool b => some (if b then 1 else 0)
  | JSVal.vnull => some 0
  | JSVal.vundef => none

/-- JavaScript global isNaN: coerce to number, test for NaN. -/
def jsIsNaN (v : JSVal) : Bool := (jsToNumber v).isNone

/-- The comparison `v <= 0` under ToNumber coercion; false when v is NaN. -/
def jsLeZero (v : JSVal) : Bool :=
  match jsToNumber v with
  | some n => decide (n ≤ 0)
  | none => false

def strTrue : String := "true"
def strFalse : String := "false"
def strNull : String := "null"
def strUndefined : String := "undefined"
def strEmpty : String := ""

/-- String coercion applied when a JS value is bound into a VARCHAR column. -/
def jsToString : JSVal → String
  | JSVal.vstr s => s
  | JSVal.vnum n => toString n
  | JSVal.vbool b => if b then strTrue else strFalse
  | JSVal.vnull => strNull
  | JSVal.vundef => strUndefined

/-- Modelled external dependency: the bcrypt library. Hashing is one-way
tagging; compare(p, h) holds exactly when h = hash(p), which preserves the
two facts the routes use: a password verifies against its own hash, and a
wrong password fails to verify. -/
def bcryptTag : String := "bcrypt$2b$10$"

def bcryptHash (password : String) : String := bcryptTag ++ password

def bcryptCompare (password hash : String) : Bool := hash == bcryptHash password

/-- A row of the users table (src/server.js lines 37-46). -/
structure User where
  id : Nat
  name : String
  email : String
  password_hash : String
  role : String
deriving DecidableEq

/-- A row of the vendors table (src/server.js lines 48-58). reward_amount is
DECIMAL(10,2); the routes never compute with it, so it is carried as the
integer the request supplied. -/
structure Vendor where
  id : Nat
  name : String
  wallet_address : String
  milestone_goal : Int
  reward_amount : Int
  is_paid : Bool
deriving DecidableEq

/-- A row of the progress_logs table (src/server.js lines 60-68). -/
structure ProgressEntry where
  id : Nat
  vendor_id : Nat
  progress : Int
  timestamp : Nat
deriving DecidableEq

/-- The whole persistent state: the three tables, the session flag
FOREIGN_KEY_CHECKS, the three AUTO_INCREMENT counters, and a logical clock
standing in for `new Date()`. -/
structure DB where
  users : List User
  vendors : List Vendor
  progress_logs : List ProgressEntry
  fkChecks : Bool
  nextUserId : Nat
  nextVendorId : Nat
  nextLogId : Nat
  clock : Nat
deriving DecidableEq

/-- The state right after setupDatabase on a fresh store. -/
def DB.init : DB :=
  { users := [], vendors := [], progress_logs := [], fkChecks := true,
    nextUserId := 1, nextVendorId := 1, nextLogId := 1, clock := 0 }

/-- The user fields echoed by a successful login (password hash excluded). -/
structure UserInfo where
  id : Nat
  name : String
  email : String
  role : String
deriving DecidableEq

/-- An HTTP response: status code plus the JSON body fields any route of
this server can emit (absent fields are none). -/
structure Response where
  status : Nat
  message : String
  user : Option UserInfo
  totalProgress : Option Int
  vendorId : Option Nat
deriving DecidableEq

/-- A response whose body is just a message. -/
def Response.plain (status : Nat) (message : String) : Response :=
  { status := status, message := message, user := none,
    totalProgress := none, vendorId := none }

def msgSignupMissing : String := "All fields are required for signup."
def msgUserCreated : String := "User created successfully!"
def msgDupEmail : String := "An account with this email already exists."
def msgSignupFail : String := "Failed to create user."
def msgLoginMissing : String := "Email, password, and role are required."
def msgInvalidCred : String := "Invalid email or password."
def msgLoginOk : String := "Login successful!"
def msgVendorMissing : String := "All vendor fields are required."
def msgVendorAdded : String := "Vendor added successfully!"
def msgVendorFail : String := "Failed to add vendor."
def msgInvalidProgress : String := "Invalid progress value."
def msgProgressOk : String := "Progress updated successfully!"
def msgProgressUpdateFail : String := "Failed to update progress."
def msgPayoutOk : String := "Payout processed successfully!"
def msgResetOk : String := "Simulation reset successfully."
def msgRoleOpen : String := "Access denied. Please log in through the \x27"
def msgRoleClose : String := "\x27 portal."

/-- The 403 body of the login route, naming the account's stored role. -/
def roleMismatchMessage (storedRole : String) : String :=
  msgRoleOpen ++ storedRole ++ msgRoleClose

def roleGovernment : String := "government"
def roleProducer : String := "producer"
def roleAuditor : String := "auditor"

/-- Membership in the role ENUM of the users table. -/
def validRole (r : String) : Bool :=
  r == roleGovernment || r == roleProducer || r == roleAuditor

/-- The 1-based index lookup into the role ENUM member list, in column
declaration order; index 0 and out-of-range indexes are the strict-mode
error value (none). -/
def roleEnumByIndex (i : Int) : Option String :=
  if i = 1 then some roleGovernment
  else if i = 2 then some roleProducer
  else if i = 3 then some roleAuditor
  else none

/-- The value of one decimal digit character (codepoints 48-57), none on
any other character. -/
def digitVal (c : Char) : Option Nat :=
  if 48 ≤ c.toNat && c.toNat ≤ 57 then some (c.toNat - 48) else none

/-- The value of a run of decimal digits, most significant first, folded
onto an accumulator; none as soon as a non-digit appears. -/
def decNatAux : List Char → Nat → Option Nat
  | [], acc => some acc
  | c :: cs, acc =>
    match digitVal c with
    | some d => decNatAux cs (acc * 10 + d)
    | none => none

/-- MySQL strict-mode reading of a whole string as an integer: an optional
minus sign (codepoint 45) followed by at least one decimal digit; any other
string raises an incorrect-integer-value error (none). -/
def mysqlIntOfString (s : String) : Option Int :=
  match s.data with
  | [] => none
  | c :: cs =>
    if c.toNat = 45 then
      match cs with
      | [] => none
      | _ => (decNatAux cs 0).map (fun v => -(v : Int))
    else
      (decNatAux (c :: cs) 0).map (fun v => (v : Int))

/-- MySQL strict-mode conversion of the bound value into the role ENUM
column: a string equal to a member is stored as that member; a number (a
boolean binds as its 0/1 number), or a string that matches no member but is
numeric, is read as a 1-based index into the member list; NULL and every
remaining value is a data error (none), which aborts the INSERT. -/
def enumStoreRole (v : JSVal) : Option String :=
  match v with
  | JSVal.vstr s =>
    if validRole s then some s
    else
      match mysqlIntOfString s with
      | some i => roleEnumByIndex i
      | none => none
  | JSVal.vnum n => roleEnumByIndex n
  | JSVal.vbool b => roleEnumByIndex (if b then 1 else 0)
  | JSVal.vnull => none
  | JSVal.vundef => none

/-- POST /signup (src/server.js lines 79-100). The INSERT carries MySQL
strict-mode semantics: the role value is converted into the ENUM column by
enumStoreRole while the row is formed — an unconvertible value aborts the
statement with a data error before the unique email index is touched — and
the route maps ER_DUP_ENTRY to 409 and every other store error to 500. -/
def signup (db : DB) (name email role password : JSVal) : Response × DB :=
  if !(jsTruthy name) || !(jsTruthy email) || !(jsTruthy role) || !(jsTruthy password) then
    (Response.plain 400 msgSignupMissing, db)
  else
    match enumStoreRole role with
    | none => (Response.plain 500 msgSignupFail, db)
    | some storedRole =>
      if db.users.any (fun u => u.email == jsToString email) then
        (Response.plain 409 msgDupEmail, db)
      else
        (Response.plain 201 msgUserCreated,
         { db with
            users := db.users ++
              [{ id := db.nextUserId, name := jsToString name,
                 email := jsToString email,
                 password_hash := bcryptHash (jsToString password),
                 role := storedRole }],
            nextUserId := db.nextUserId + 1 })

/-- SELECT * FROM users WHERE email = ?, keeping the first row. -/
def findUserByEmail (db : DB) (email : String) : Option User :=
  db.users.find? (fun u => u.email == email)

/-- POST /login (src/server.js lines 103-145). -/
def login (db : DB) (email password role : JSVal) : Response × DB :=
  if !(jsTruthy email) || !(jsTruthy password) || !(jsTruthy role) then
    (Response.plain 400 msgLoginMissing, db)
  else
    match findUserByEmail db (jsToString email) with
    | none => (Response.plain 401 msgInvalidCred, db)
    | some user =>
      if !(bcryptCompare (jsToString password) user.password_hash) then
        (Response.plain 401 msgInvalidCred, db)
      else if user.role != jsToString role then
        (Response.plain 403 (roleMismatchMessage user.role), db)
      else
        ({ status := 200, message := msgLoginOk,
           user := some { id := user.id, name := user.name,
                          email := user.email, role := user.role },
           totalProgress := none, vendorId := none }, db)

/-- ORDER BY name, realised as an insertion sort on the name column. -/
def insertByName (v : Vendor) : List Vendor → List Vendor
  | [] => [v]
  | w :: ws => if v.name ≤ w.name then v :: w :: ws else w :: insertByName v ws

def sortVendorsByName : List Vendor → List Vendor
  | [] => []
  | v :: vs => insertByName v (sortVendorsByName vs)

/-- GET /vendors (src/server.js lines 150-158): status and the rows. -/
def listVendors (db : DB) : (Nat × List Vendor) × DB :=
  ((200, sortVendorsByName db.vendors), db)

/-- POST /add-vendor (src/server.js lines 160-173). Its catch block maps
every store error, the duplicate-wallet ER_DUP_ENTRY included, to 500: this
route has no duplicate-key branch, unlike signup. A non-numeric value bound
into the INT or DECIMAL column is a strict-mode data error, also 500. -/
def addVendor (db : DB) (name walletAddress milestoneGoal rewardAmount : JSVal) :
    Response × DB :=
  if !(jsTruthy name) || !(jsTruthy walletAddress) || !(jsTruthy milestoneGoal)
      || !(jsTruthy rewardAmount) then
    (Response.plain 400 msgVendorMissing, db)
  else
    match jsToNumber milestoneGoal, jsToNumber rewardAmount with
    | some goal, some reward =>
      if db.vendors.any (fun v => v.wallet_address == jsToString walletAddress) then
        (Response.plain 500 msgVendorFail, db)
      else
        ({ status := 201, message := msgVendorAdded, user := none,
           totalProgress := none, vendorId := some db.nextVendorId },
         { db with
            vendors := db.vendors ++
              [{ id := db.nextVendorId, name := jsToString name,
                 wallet_address := jsToString walletAddress,
                 milestone_goal := goal, reward_amount := reward,
                 is_paid := false }],
            nextVendorId := db.nextVendorId + 1 })
    | _, _ => (Response.plain 500 msgVendorFail, db)

/-- The rows SELECTed by WHERE vendor_id = ?. -/
def entriesFor (db : DB) (vendorId : Nat) : List ProgressEntry :=
  db.progress_logs.filter (fun e => e.vendor_id == vendorId)

/-- SQL SUM aggregate: NULL (none) on an empty row set. -/
def sqlSum (l : List Int) : Option Int :=
  match l with
  | [] => none
  | _ => some l.sum

/-- The JavaScript expression `rows[0].totalProgress || 0`: NULL and a zero
sum both land on the number 0. -/
def jsOrZero (o : Option Int) : Int :=
  match o with
  | none => 0
  | some n => if n = 0 then 0 else n

/-- GET /vendors/:vendorId/progress (src/server.js lines 175-186). -/
def getTotalProgress (db : DB) (vendorId : Nat) : Response × DB :=
  ({ status := 200, message := strEmpty, user := none,
     totalProgress :=
       some (jsOrZero (sqlSum ((entriesFor db vendorId).map (fun e => e.progress)))),
     vendorId := none }, db)

/-- Whether a vendors row with this id exists (the FOREIGN KEY target). -/
def vendorExists (db : DB) (vendorId : Nat) : Bool :=
  db.vendors.any (fun v => v.id == vendorId)

/-- POST /vendors/:vendorId/progress (src/server.js lines 188-205). The
INSERT carries the FOREIGN KEY (vendor_id) REFERENCES vendors(id) check:
when enforcement is on and no such vendor exists the statement fails and
the catch block answers 500. -/
def recordProgress (db : DB) (vendorId : Nat) (newProgress : JSVal) : Response × DB :=
  if !(jsTruthy newProgress) || jsIsNaN newProgress || jsLeZero newProgress then
    (Response.plain 400 msgInvalidProgress, db)
  else
    if db.fkChecks && !(vendorExists db vendorId) then
      (Response.plain 500 msgProgressUpdateFail, db)
    else
      (Response.plain 200 msgProgressOk,
       { db with
          progress_logs := db.progress_logs ++
            [{ id := db.nextLogId, vendor_id := vendorId,
               progress := (jsToNumber newProgress).getD 0,
               timestamp := db.clock }],
          nextLogId := db.nextLogId + 1, clock := db.clock + 1 })

/-- POST /vendors/:vendorId/payout (src/server.js lines 207-217): the
unconditional UPDATE vendors SET is_paid = TRUE WHERE id = ?. -/
def markPaid (db : DB) (vendorId : Nat) : Response × DB :=
  (Response.plain 200 msgPayoutOk,
   { db with
      vendors := db.vendors.map
        (fun v => if v.id == vendorId then { v with is_paid := true } else v) })

/-- POST /reset (src/server.js lines 219-232): FOREIGN_KEY_CHECKS off, the
three TRUNCATEs (each also resetting its AUTO_INCREMENT counter), then
FOREIGN_KEY_CHECKS back on. -/
def resetAll (db : DB) : Response × DB :=
  let db1 := { db with fkChecks := false }
  let db2 := { db1 with progress_logs := [], nextLogId := 1 }
  let db3 := { db2 with vendors := [], nextVendorId := 1 }
  let db4 := { db3 with users := [], nextUserId := 1 }
  let db5 := { db4 with fkChecks := true }
  (Response.plain 200 msgResetOk, db5)

/-- Record a whole sequence of progress values for one vendor, threading the
state through successive POST /vendors/:vendorId/progress calls. -/
def recordAll (db : DB) (vendorId : Nat) : List Int → DB
  | [] => db
  | p :: rest => recordAll (recordProgress db vendorId (JSVal.vnum p)).2 vendorId rest

/-- The HTTP statuses answered along such a sequence of calls. -/
def recordAllStatuses (db : DB) (vendorId : Nat) : List Int → List Nat
  | [] => []
  | p :: rest =>
    (recordProgress db vendorId (JSVal.vnum p)).1.status ::
      recordAllStatuses (recordProgress db vendorId (JSVal.vnum p)).2 vendorId rest

/-- The sum of the progress column over the rows of one vendor; the number
the GET route serialises (see jsOrZero and sqlSum). -/
def progressSum (db : DB) (vendorId : Nat) : Int :=
  ((entriesFor db vendorId).map (fun e => e.progress)).sum

def nameAcme : String := "Acme H2"
def nameBeta : String := "Beta H2"
def walletAcme : String := "0xABC0000000000000000000000000000000000000"

/-- A concrete registered vendor, after the example scenario's add-vendor. -/
def vendorAcme : Vendor :=
  { id := 1, name := nameAcme, wallet_address := walletAcme,
    milestone_goal := 1000, reward_amount := 50000, is_paid := false }

/-- A concrete state holding exactly the vendor vendorAcme. -/
def dbOneVendor : DB :=
  { DB.init with vendors := [vendorAcme], nextVendorId := 2 }

def nameAda : String := "Ada"
def emailAda : String := "ada@example.com"
def pwAda : String := "pw123"
def emailBob : String := "bob@example.com"
def pwWrong : String := "letmein"
def roleBogus : String := "admin"
def roleIndexTwo : String := "2"

/-- A concrete signed-up user with a government role. -/
def userAda : User :=
  { id := 1, name := nameAda, email := emailAda,
    password_hash := bcryptHash pwAda, role := roleGovernment }

/-- A concrete state holding exactly the user userAda. -/
def dbOneUser : DB :=
  { DB.init with users := [userAda], nextUserId := 2 }

/-! Helper lemmas shared by the claim theorems. -/

/-- The run of SUM then `|| 0` computes the plain list sum: an empty row set
gives NULL then 0, and a zero sum is mapped to the same 0. -/
theorem jsOrZero_sqlSum (l : List Int) : jsOrZero (sqlSum l) = l.sum := by
  cases l with
  | nil => rfl
  | cons x xs =>
    simp only [sqlSum, jsOrZero]
    split <;> omega

/-- The GET route's totalProgress field is always the vendor's progressSum. -/
theorem getTotalProgress_totalProgress (db : DB) (vid : Nat) :
    (getTotalProgress db vid).1.totalProgress = some (progressSum db vid) := by
  simp [getTotalProgress, progressSum, jsOrZero_sqlSum]

/-- A value that coerces to a strictly positive number is truthy. -/
theorem jsTruthy_of_toNumber_pos (v : JSVal) (n : Int)
    (hn : jsToNumber v = some n) (hpos : 0 < n) : jsTruthy v = true := by
  cases v with
  | vstr s =>
    by_cases hs : s = ""
    · subst hs
      simp [jsToNumber] at hn
      omega
    · simp [jsTruthy, hs]
  | vnum m =>
    simp only [jsToNumber, Option.some.injEq] at hn
    subst hn
    simp only [jsTruthy, bne_iff_ne, ne_eq, decide_eq_true_eq]
    omega
  | vbool b =>
    cases b with
    | false => simp [jsToNumber] at hn; omega
    | true => rfl
  | vnull => simp [jsToNumber] at hn; omega
  | vundef => simp [jsToNumber] at hn

/-- A successful POST of the positive value p for an existing vendor: the
200 response and the appended row, everything else untouched. -/
theorem recordProgress_vnum_pos (db : DB) (vid : Nat) (p : Int)
    (hv : vendorExists db vid = true) (hp : 0 < p) :
    recordProgress db vid (JSVal.vnum p) =
      (Response.plain 200 msgProgressOk,
       { db with
          progress_logs := db.progress_logs ++
            [{ id := db.nextLogId, vendor_id := vid, progress := p,
               timestamp := db.clock }],
          nextLogId := db.nextLogId + 1, clock := db.clock + 1 }) := by
  have ht : jsTruthy (JSVal.vnum p) = true := by
    simp only [jsTruthy, bne_iff_ne, ne_eq, decide_eq_true_eq]
    omega
  have hnan : jsIsNaN (JSVal.vnum p) = false := by simp [jsIsNaN, jsToNumber]
  have hle : jsLeZero (JSVal.vnum p) = false := by
    simp only [jsLeZero, jsToNumber, decide_eq_false_iff_not, not_le]
    omega
  simp [recordProgress, ht, hnan, hle, hv, jsToNumber]

/-- Recording a sequence of positive values for an existing vendor adds
exactly their sum to the vendor's progressSum. -/
theorem recordAll_progressSum (vid : Nat) (ps : List Int) :
    ∀ db : DB, vendorExists db vid = true → (∀ p ∈ ps, 0 < p) →
      progressSum (recordAll db vid ps) vid = progressSum db vid + ps.sum := by
  induction ps with
  | nil => intro db hv hp; simp [recordAll]
  | cons q qs ih =>
    intro db hv hp
    have hq : 0 < q := hp q (List.mem_cons_self q qs)
    rw [recordAll, recordProgress_vnum_pos db vid q hv hq]
    have hv' : vendorExists
        { db with
           progress_logs := db.progress_logs ++
             [{ id := db.nextLogId, vendor_id := vid, progress := q,
                timestamp := db.clock }],
           nextLogId := db.nextLogId + 1, clock := db.clock + 1 } vid = true := hv
    rw [ih _ hv' (fun p hmem => hp p (List.mem_cons_of_mem q hmem))]
    simp [progressSum, entriesFor, List.filter_append, List.sum_cons]
    omega

/-- Every status answered along such a sequence is 200. -/
theorem recordAllStatuses_all_200 (vid : Nat) (ps : List Int) :
    ∀ db : DB, vendorExists db vid = true → (∀ p ∈ ps, 0 < p) →
      ∀ s ∈ recordAllStatuses db vid ps, s = 200 := by
  induction ps with
  | nil => intro db _ _ s hs; simp [recordAllStatuses] at hs
  | cons q qs ih =>
    intro db hv hp s hs
    have hq : 0 < q := hp q (List.mem_cons_self q qs)
    rw [recordAllStatuses] at hs
    rcases List.mem_cons.mp hs with h200 | hrest
    · rw [recordProgress_vnum_pos db vid q hv hq] at h200
      simpa [Response.plain] using h200
    · have hv' : vendorExists (recordProgress db vid (JSVal.vnum q)).2 vid = true := by
        rw [recordProgress_vnum_pos db vid q hv hq]
        exact hv
      exact ih _ hv' (fun p hmem => hp p (List.mem_cons_of_mem q hmem)) s hrest

/-! The claim theorems. -/

/-- C1: for every vendor and every sequence of successfully recorded
strictly positive progress values p1..pn, getTotalProgress returns the sum
p1 + ... + pn, and the result is the same for every permutation of the
recording order (every call along both orders answers 200). -/
theorem total_progress_is_sum_and_perm_invariant (db : DB) (vid : Nat)
    (ps qs : List Int)
    (hv : vendorExists db vid = true)
    (h0 : entriesFor db vid = [])
    (hps : ∀ p ∈ ps, 0 < p)
    (hperm : qs.Perm ps) :
    (∀ s ∈ recordAllStatuses db vid ps, s = 200) ∧
    (∀ s ∈ recordAllStatuses db vid qs, s = 200) ∧
    (getTotalProgress (recordAll db vid ps) vid).1.totalProgress = some ps.sum ∧
    (getTotalProgress (recordAll db vid qs) vid).1.totalProgress = some ps.sum := by
  have hqs : ∀ p ∈ qs, 0 < p := fun p hmem => hps p (hperm.mem_iff.mp hmem)
  have h0' : progressSum db vid = 0 := by simp [progressSum, h0]
  have hqsum : qs.sum = ps.sum := hperm.sum_eq
  refine ⟨recordAllStatuses_all_200 vid ps db hv hps,
          recordAllStatuses_all_200 vid qs db hv hqs, ?_, ?_⟩
  · rw [getTotalProgress_totalProgress, recordAll_progressSum vid ps db hv hps, h0']
    simp
  · rw [getTotalProgress_totalProgress, recordAll_progressSum vid qs db hv hqs, h0',
        hqsum]
    simp

/-- C1 witness: the example scenario's vendor, recording 300 then 450 and
450 then 300, both totalling 750. -/
theorem total_progress_sum_witness :
    vendorExists dbOneVendor 1 = true ∧
    entriesFor dbOneVendor 1 = [] ∧
    (∀ p ∈ ([300, 450] : List Int), 0 < p) ∧
    ([450, 300] : List Int).Perm [300, 450] ∧
    (getTotalProgress (recordAll dbOneVendor 1 [300, 450]) 1).1.totalProgress =
      some (([300, 450] : List Int).sum) ∧
    (getTotalProgress (recordAll dbOneVendor 1 [450, 300]) 1).1.totalProgress =
      some (([300, 450] : List Int).sum) := by
  refine ⟨by decide, by decide, by decide, by decide, ?_, ?_⟩
  · exact (total_progress_is_sum_and_perm_invariant dbOneVendor 1 [300, 450]
      [450, 300] (by decide) (by decide) (by decide) (by decide)).2.2.1
  · exact (total_progress_is_sum_and_perm_invariant dbOneVendor 1 [300, 450]
      [450, 300] (by decide) (by decide) (by decide) (by decide)).2.2.2

/-- C2 counterexample: an add-vendor request with all four fields truthy
whose wallet address is already registered answers 500, not the claimed
409 ConflictError: the add-vendor catch block has no duplicate-key branch. -/
theorem duplicate_wallet_not_409 :
    jsTruthy (JSVal.vstr nameBeta) = true ∧
    jsTruthy (JSVal.vstr walletAcme) = true ∧
    jsTruthy (JSVal.vnum 500) = true ∧
    jsTruthy (JSVal.vnum 100) = true ∧
    dbOneVendor.vendors.any
      (fun v => v.wallet_address == jsToString (JSVal.vstr walletAcme)) = true ∧
    (addVendor dbOneVendor (JSVal.vstr nameBeta) (JSVal.vstr walletAcme)
      (JSVal.vnum 500) (JSVal.vnum 100)).1.status = 500 ∧
    ¬ (addVendor dbOneVendor (JSVal.vstr nameBeta) (JSVal.vstr walletAcme)
      (JSVal.vnum 500) (JSVal.vnum 100)).1.status = 409 := by
  decide

/-- C2 (amended): for every add-vendor request with all four fields truthy
whose wallet address is already registered, the operation fails with
HTTP 500 (the route maps the duplicate-key store error to its generic
failure) and no new vendor row is created. -/
theorem duplicate_wallet_yields_500 (db : DB)
    (name walletAddress milestoneGoal rewardAmount : JSVal)
    (h1 : jsTruthy name = true) (h2 : jsTruthy walletAddress = true)
    (h3 : jsTruthy milestoneGoal = true) (h4 : jsTruthy rewardAmount = true)
    (hdup : db.vendors.any
      (fun v => v.wallet_address == jsToString walletAddress) = true) :
    (addVendor db name walletAddress milestoneGoal rewardAmount).1.status = 500 ∧
    (addVendor db name walletAddress milestoneGoal rewardAmount).2 = db := by
  simp only [addVendor, h1, h2, h3, h4, Bool.not_true, Bool.false_or, Bool.or_self,
    Bool.or_false, Bool.false_and, if_false]
  cases hg : jsToNumber milestoneGoal with
  | none => simp [Response.plain]
  | some goal =>
    cases hr : jsToNumber rewardAmount with
    | none => simp [Response.plain]
    | some reward => simp [hdup, Response.plain]

/-- C2 witness: the duplicate registration of walletAcme fails with 500 and
leaves the vendors table unchanged. -/
theorem duplicate_wallet_yields_500_witness :
    jsTruthy (JSVal.vstr nameBeta) = true ∧
    dbOneVendor.vendors.any
      (fun v => v.wallet_address == jsToString (JSVal.vstr walletAcme)) = true ∧
    ((addVendor dbOneVendor (JSVal.vstr nameBeta) (JSVal.vstr walletAcme)
        (JSVal.vnum 500) (JSVal.vnum 100)).1.status = 500 ∧
     (addVendor dbOneVendor (JSVal.vstr nameBeta) (JSVal.vstr walletAcme)
        (JSVal.vnum 500) (JSVal.vnum 100)).2 = dbOneVendor) :=
  ⟨by decide, by decide,
   duplicate_wallet_yields_500 dbOneVendor (JSVal.vstr nameBeta)
     (JSVal.vstr walletAcme) (JSVal.vnum 500) (JSVal.vnum 100)
     (by decide) (by decide) (by decide) (by decide) (by decide)⟩

/-- C3: with all three login fields present, the failure response for an
email matching no user and the failure response for an existing email with
a non-matching password are identical: the same 401 status and the same
message body, so the two causes are indistinguishable to the caller. -/
theorem login_failures_indistinguishable (db1 db2 : DB)
    (e1 p1 r1 e2 p2 r2 : JSVal) (u : User)
    (he1 : jsTruthy e1 = true) (hp1 : jsTruthy p1 = true) (hr1 : jsTruthy r1 = true)
    (he2 : jsTruthy e2 = true) (hp2 : jsTruthy p2 = true) (hr2 : jsTruthy r2 = true)
    (hnone : findUserByEmail db1 (jsToString e1) = none)
    (hsome : findUserByEmail db2 (jsToString e2) = some u)
    (hpw : bcryptCompare (jsToString p2) u.password_hash = false) :
    (login db1 e1 p1 r1).1 = (login db2 e2 p2 r2).1 ∧
    (login db1 e1 p1 r1).1.status = 401 ∧
    (login db1 e1 p1 r1).1.message = msgInvalidCred := by
  simp [login, he1, hp1, hr1, he2, hp2, hr2, hnone, hsome, hpw, Response.plain]

/-- C3 witness: a lookup miss for emailBob and a wrong password for the
existing emailAda produce the very same 401 response. -/
theorem login_failures_indistinguishable_witness :
    jsTruthy (JSVal.vstr emailBob) = true ∧
    jsTruthy (JSVal.vstr pwWrong) = true ∧
    jsTruthy (JSVal.vstr roleGovernment) = true ∧
    jsTruthy (JSVal.vstr emailAda) = true ∧
    findUserByEmail dbOneUser (jsToString (JSVal.vstr emailBob)) = none ∧
    findUserByEmail dbOneUser (jsToString (JSVal.vstr emailAda)) = some userAda ∧
    bcryptCompare (jsToString (JSVal.vstr pwWrong)) userAda.password_hash = false ∧
    ((login dbOneUser (JSVal.vstr emailBob) (JSVal.vstr pwWrong)
        (JSVal.vstr roleGovernment)).1 =
     (login dbOneUser (JSVal.vstr emailAda) (JSVal.vstr pwWrong)
        (JSVal.vstr roleGovernment)).1 ∧
     (login dbOneUser (JSVal.vstr emailBob) (JSVal.vstr pwWrong)
        (JSVal.vstr roleGovernment)).1.status = 401 ∧
     (login dbOneUser (JSVal.vstr emailBob) (JSVal.vstr pwWrong)
        (JSVal.vstr roleGovernment)).1.message = msgInvalidCred) :=
  ⟨by decide, by decide, by decide, by decide, by decide, by decide, by decide,
   login_failures_indistinguishable dbOneUser dbOneUser (JSVal.vstr emailBob)
     (JSVal.vstr pwWrong) (JSVal.vstr roleGovernment) (JSVal.vstr emailAda)
     (JSVal.vstr pwWrong) (JSVal.vstr roleGovernment) userAda
     (by decide) (by decide) (by decide) (by decide) (by decide) (by decide)
     (by decide) (by decide) (by decide)⟩

/-- C4: a login whose email and password match a stored user but whose
requested role differs from the stored role fails with 403, the message
naming the account's actual stored role, and never succeeds (status is not
200 and no user payload is returned). -/
theorem login_role_mismatch_403 (db : DB) (email password role : JSVal) (u : User)
    (he : jsTruthy email = true) (hp : jsTruthy password = true)
    (hr : jsTruthy role = true)
    (hfind : findUserByEmail db (jsToString email) = some u)
    (hpw : bcryptCompare (jsToString password) u.password_hash = true)
    (hrole : u.role ≠ jsToString role) :
    (login db email password role).1.status = 403 ∧
    (login db email password role).1.message = roleMismatchMessage u.role ∧
    (login db email password role).1.status ≠ 200 ∧
    (login db email password role).1.user = none := by
  simp [login, he, hp, hr, hfind, hpw, hrole, Response.plain]

/-- C4 witness: userAda's correct password under the producer portal is
rejected with 403 naming the stored government role. -/
theorem login_role_mismatch_403_witness :
    jsTruthy (JSVal.vstr emailAda) = true ∧
    jsTruthy (JSVal.vstr pwAda) = true ∧
    jsTruthy (JSVal.vstr roleProducer) = true ∧
    findUserByEmail dbOneUser (jsToString (JSVal.vstr emailAda)) = some userAda ∧
    bcryptCompare (jsToString (JSVal.vstr pwAda)) userAda.password_hash = true ∧
    userAda.role ≠ jsToString (JSVal.vstr roleProducer) ∧
    ((login dbOneUser (JSVal.vstr emailAda) (JSVal.vstr pwAda)
        (JSVal.vstr roleProducer)).1.status = 403 ∧
     (login dbOneUser (JSVal.vstr emailAda) (JSVal.vstr pwAda)
        (JSVal.vstr roleProducer)).1.message = roleMismatchMessage userAda.role ∧
     (login dbOneUser (JSVal.vstr emailAda) (JSVal.vstr pwAda)
        (JSVal.vstr roleProducer)).1.status ≠ 200 ∧
     (login dbOneUser (JSVal.vstr emailAda) (JSVal.vstr pwAda)
        (JSVal.vstr roleProducer)).1.user = none) :=
  ⟨by decide, by decide, by decide, by decide, by decide, by decide,
   login_role_mismatch_403 dbOneUser (JSVal.vstr emailAda) (JSVal.vstr pwAda)
     (JSVal.vstr roleProducer) userAda (by decide) (by decide) (by decide)
     (by decide) (by decide) (by decide)⟩

/-- C5: a recordProgress request whose newProgress is absent, non-numeric,
or not strictly positive is rejected with 400, no entry is appended (the
state is unchanged), and the vendor's total progress is unchanged. -/
theorem invalid_progress_rejected_400 (db : DB) (vid : Nat) (v : JSVal)
    (h : v = JSVal.vundef ∨ jsIsNaN v = true ∨
         ∃ n, jsToNumber v = some n ∧ n ≤ 0) :
    (recordProgress db vid v).1.status = 400 ∧
    (recordProgress db vid v).2 = db ∧
    (getTotalProgress (recordProgress db vid v).2 vid).1.totalProgress =
      (getTotalProgress db vid).1.totalProgress := by
  have hcond : (!(jsTruthy v) || jsIsNaN v || jsLeZero v) = true := by
    rcases h with rfl | hnan | ⟨n, hn, hle⟩
    · rfl
    · simp [hnan]
    · have : jsLeZero v = true := by simp [jsLeZero, hn, hle]
      simp [this]
  simp [recordProgress, hcond, Response.plain]

/-- C5 witness: posting newProgress = 0 answers 400 and leaves the state,
and therefore the total, unchanged. -/
theorem invalid_progress_rejected_400_witness :
    (JSVal.vnum 0 = JSVal.vundef ∨ jsIsNaN (JSVal.vnum 0) = true ∨
      ∃ n, jsToNumber (JSVal.vnum 0) = some n ∧ n ≤ 0) ∧
    ((recordProgress dbOneVendor 1 (JSVal.vnum 0)).1.status = 400 ∧
     (recordProgress dbOneVendor 1 (JSVal.vnum 0)).2 = dbOneVendor ∧
     (getTotalProgress (recordProgress dbOneVendor 1 (JSVal.vnum 0)).2 1).1.totalProgress =
       (getTotalProgress dbOneVendor 1).1.totalProgress) :=
  ⟨Or.inr (Or.inr ⟨0, rfl, by decide⟩),
   invalid_progress_rejected_400 dbOneVendor 1 (JSVal.vnum 0)
     (Or.inr (Or.inr ⟨0, rfl, by decide⟩))⟩

/-- C6: for every vendorId with zero recorded progress rows,
getTotalProgress answers 200 with totalProgress equal to the number 0
(a present some value, never null or an absent field). -/
theorem empty_progress_total_zero (db : DB) (vid : Nat)
    (h : entriesFor db vid = []) :
    (getTotalProgress db vid).1.status = 200 ∧
    (getTotalProgress db vid).1.totalProgress = some 0 ∧
    (getTotalProgress db vid).1.totalProgress ≠ none := by
  refine ⟨rfl, ?_, ?_⟩
  · rw [getTotalProgress_totalProgress]
    simp [progressSum, h]
  · rw [getTotalProgress_totalProgress]
    simp

/-- C6 witness: the vendor of dbOneVendor has no rows and totals 0. -/
theorem empty_progress_total_zero_witness :
    entriesFor dbOneVendor 1 = [] ∧
    ((getTotalProgress dbOneVendor 1).1.status = 200 ∧
     (getTotalProgress dbOneVendor 1).1.totalProgress = some 0 ∧
     (getTotalProgress dbOneVendor 1).1.totalProgress ≠ none) :=
  ⟨by decide, empty_progress_total_zero dbOneVendor 1 (by decide)⟩

/-- The UPDATE touches nothing when no row matches the WHERE clause. -/
theorem map_setPaid_eq_self (vid : Nat) (l : List Vendor)
    (h : ∀ v ∈ l, (v.id == vid) = false) :
    l.map (fun v => if v.id == vid then { v with is_paid := true } else v) = l := by
  induction l with
  | nil => rfl
  | cons w ws ih =>
    have hw := h w (List.mem_cons_self w ws)
    simp only [List.map_cons, hw, if_false, List.cons.injEq]
    exact ⟨rfl, ih (fun v hv => h v (List.mem_cons_of_mem w hv))⟩

/-- Re-running the UPDATE on its own output changes nothing. -/
theorem map_setPaid_twice (vid : Nat) (l : List Vendor) :
    (l.map (fun v => if v.id == vid then { v with is_paid := true } else v)).map
      (fun v => if v.id == vid then { v with is_paid := true } else v) =
    l.map (fun v => if v.id == vid then { v with is_paid := true } else v) := by
  induction l with
  | nil => rfl
  | cons w ws ih =>
    simp only [List.map_cons, ih, List.cons.injEq, and_true]
    by_cases hw : (w.id == vid) = true
    · simp [hw]
    · simp only [Bool.not_eq_true] at hw
      simp [hw]

/-- C7: markPaid always answers the same 200 success, sets is_paid = true
on every row whose id matches, is a no-op on a state without that vendor,
and is idempotent: a second call returns the same response and state. -/
theorem markPaid_idempotent_200 (db : DB) (vid : Nat) :
    (markPaid db vid).1.status = 200 ∧
    (markPaid db vid).1.message = msgPayoutOk ∧
    (∀ v ∈ (markPaid db vid).2.vendors, v.id = vid → v.is_paid = true) ∧
    (vendorExists db vid = false → (markPaid db vid).2 = db) ∧
    markPaid (markPaid db vid).2 vid = markPaid db vid := by
  refine ⟨rfl, rfl, ?_, ?_, ?_⟩
  · intro v hv hid
    simp only [markPaid, List.mem_map] at hv
    obtain ⟨w, _, rfl⟩ := hv
    by_cases hw : (w.id == vid) = true
    · simp [hw]
    · simp only [Bool.not_eq_true] at hw
      simp only [hw, if_false] at hid ⊢
      rw [beq_eq_false_iff_ne] at hw
      exact absurd hid hw
  · intro h
    have hall : ∀ v ∈ db.vendors, (v.id == vid) = false := by
      intro v hv
      by_contra hc
      simp only [Bool.not_eq_false] at hc
      have htrue : vendorExists db vid = true := by
        simp only [vendorExists, List.any_eq_true]
        exact ⟨v, hv, hc⟩
      rw [htrue] at h
      simp at h
    have hmap := map_setPaid_eq_self vid db.vendors hall
    simp only [markPaid, hmap]
  · simp only [markPaid, map_setPaid_twice]

/-- C7 witness: the concrete one-vendor state, paid twice. -/
theorem markPaid_idempotent_200_witness :
    (markPaid dbOneVendor 1).1.status = 200 ∧
    (markPaid dbOneVendor 1).1.message = msgPayoutOk ∧
    (∀ v ∈ (markPaid dbOneVendor 1).2.vendors, v.id = 1 → v.is_paid = true) ∧
    (vendorExists dbOneVendor 1 = false → (markPaid dbOneVendor 1).2 = dbOneVendor) ∧
    markPaid (markPaid dbOneVendor 1).2 1 = markPaid dbOneVendor 1 :=
  markPaid_idempotent_200 dbOneVendor 1

/-- C8: after resetAll all three tables are empty, listVendors answers an
empty array, every vendor's total progress is 0, every login with the three
fields present fails with 401, and foreign-key enforcement is back on. -/
theorem reset_clears_all_state (db : DB) (e p r : JSVal) (vid : Nat)
    (he : jsTruthy e = true) (hp : jsTruthy p = true) (hr : jsTruthy r = true) :
    (resetAll db).1.status = 200 ∧
    (resetAll db).2.users = [] ∧
    (resetAll db).2.vendors = [] ∧
    (resetAll db).2.progress_logs = [] ∧
    (resetAll db).2.fkChecks = true ∧
    (listVendors (resetAll db).2).1.2 = [] ∧
    (getTotalProgress (resetAll db).2 vid).1.totalProgress = some 0 ∧
    (login (resetAll db).2 e p r).1.status = 401 := by
  refine ⟨rfl, rfl, rfl, rfl, rfl, rfl, ?_, ?_⟩
  · rw [getTotalProgress_totalProgress]
    simp [progressSum, entriesFor, resetAll]
  · simp [login, he, hp, hr, findUserByEmail, resetAll, Response.plain]

/-- C8 witness: resetting the one-user state kills userAda's login. -/
theorem reset_clears_all_state_witness :
    jsTruthy (JSVal.vstr emailAda) = true ∧
    jsTruthy (JSVal.vstr pwAda) = true ∧
    jsTruthy (JSVal.vstr roleGovernment) = true ∧
    ((resetAll dbOneUser).1.status = 200 ∧
     (resetAll dbOneUser).2.users = [] ∧
     (resetAll dbOneUser).2.vendors = [] ∧
     (resetAll dbOneUser).2.progress_logs = [] ∧
     (resetAll dbOneUser).2.fkChecks = true ∧
     (listVendors (resetAll dbOneUser).2).1.2 = [] ∧
     (getTotalProgress (resetAll dbOneUser).2 1).1.totalProgress = some 0 ∧
     (login (resetAll dbOneUser).2 (JSVal.vstr emailAda) (JSVal.vstr pwAda)
        (JSVal.vstr roleGovernment)).1.status = 401) :=
  ⟨by decide, by decide, by decide,
   reset_clears_all_state dbOneUser (JSVal.vstr emailAda) (JSVal.vstr pwAda)
     (JSVal.vstr roleGovernment) 1 (by decide) (by decide) (by decide)⟩

/-- C9: a recordProgress request with a valid strictly positive numeric
value but a vendorId matching no vendor fails with 500 under foreign-key
enforcement, and no progress entry is appended. -/
theorem progress_unknown_vendor_500 (db : DB) (vid : Nat) (v : JSVal) (n : Int)
    (hn : jsToNumber v = some n) (hpos : 0 < n)
    (hfk : db.fkChecks = true) (hno : vendorExists db vid = false) :
    (recordProgress db vid v).1.status = 500 ∧
    (recordProgress db vid v).2 = db := by
  have ht : jsTruthy v = true := jsTruthy_of_toNumber_pos v n hn hpos
  have hnan : jsIsNaN v = false := by simp [jsIsNaN, hn]
  have hle : jsLeZero v = false := by
    simp only [jsLeZero, hn, decide_eq_false_iff_not, not_le]
    omega
  simp [recordProgress, ht, hnan, hle, hfk, hno, Response.plain]

/-- C9 witness: vendor 2 does not exist in dbOneVendor; posting 5 for it
fails with 500 and appends nothing. -/
theorem progress_unknown_vendor_500_witness :
    jsToNumber (JSVal.vnum 5) = some 5 ∧
    (0 : Int) < 5 ∧
    dbOneVendor.fkChecks = true ∧
    vendorExists dbOneVendor 2 = false ∧
    ((recordProgress dbOneVendor 2 (JSVal.vnum 5)).1.status = 500 ∧
     (recordProgress dbOneVendor 2 (JSVal.vnum 5)).2 = dbOneVendor) :=
  ⟨rfl, by decide, by decide, by decide,
   progress_unknown_vendor_500 dbOneVendor 2 (JSVal.vnum 5) 5 rfl (by decide)
     (by decide) (by decide)⟩

/-- C10 counterexample: the role string roleIndexTwo is outside the ENUM
member set, yet the signup succeeds with 201 and creates a user row — MySQL
reads the numeric string as the 1-based ENUM index and stores the producer
member — so the claimed universal 500 with no row created is false. -/
theorem signup_numeric_role_not_500 :
    jsTruthy (JSVal.vstr nameAda) = true ∧
    jsTruthy (JSVal.vstr emailBob) = true ∧
    jsTruthy (JSVal.vstr roleIndexTwo) = true ∧
    jsTruthy (JSVal.vstr pwAda) = true ∧
    validRole roleIndexTwo = false ∧
    (signup DB.init (JSVal.vstr nameAda) (JSVal.vstr emailBob)
      (JSVal.vstr roleIndexTwo) (JSVal.vstr pwAda)).1.status = 201 ∧
    ¬ (signup DB.init (JSVal.vstr nameAda) (JSVal.vstr emailBob)
      (JSVal.vstr roleIndexTwo) (JSVal.vstr pwAda)).1.status = 500 ∧
    ¬ (signup DB.init (JSVal.vstr nameAda) (JSVal.vstr emailBob)
      (JSVal.vstr roleIndexTwo) (JSVal.vstr pwAda)).2 = DB.init ∧
    ((signup DB.init (JSVal.vstr nameAda) (JSVal.vstr emailBob)
      (JSVal.vstr roleIndexTwo) (JSVal.vstr pwAda)).2.users.map
        (fun u => u.role)) = [roleProducer] := by
  decide

/-- C10 (amended): a signup request with all four fields truthy whose role
value is convertible into the ENUM column in no way — it neither equals a
member (government, producer, auditor) nor is a number or numeric string
MySQL reads as a 1-based index into the member list — fails with 500, the
strict-mode data error on the role column, not the 400 ValidationError
path, and no user row is created. -/
theorem signup_unconvertible_role_500 (db : DB) (name email role password : JSVal)
    (h1 : jsTruthy name = true) (h2 : jsTruthy email = true)
    (h3 : jsTruthy role = true) (h4 : jsTruthy password = true)
    (hrole : enumStoreRole role = none) :
    (signup db name email role password).1.status = 500 ∧
    (signup db name email role password).1.status ≠ 400 ∧
    (signup db name email role password).2 = db := by
  simp [signup, h1, h2, h3, h4, hrole, Response.plain]

/-- C10 witness: signing up with the role string roleBogus — no member and
not numeric — fails with 500 and creates no user. -/
theorem signup_unconvertible_role_500_witness :
    jsTruthy (JSVal.vstr nameAda) = true ∧
    jsTruthy (JSVal.vstr emailBob) = true ∧
    jsTruthy (JSVal.vstr roleBogus) = true ∧
    jsTruthy (JSVal.vstr pwAda) = true ∧
    enumStoreRole (JSVal.vstr roleBogus) = none ∧
    ((signup DB.init (JSVal.vstr nameAda) (JSVal.vstr emailBob)
        (JSVal.vstr roleBogus) (JSVal.vstr pwAda)).1.status = 500 ∧
     (signup DB.init (JSVal.vstr nameAda) (JSVal.vstr emailBob)
        (JSVal.vstr roleBogus) (JSVal.vstr pwAda)).1.status ≠ 400 ∧
     (signup DB.init (JSVal.vstr nameAda) (JSVal.vstr emailBob)
        (JSVal.vstr roleBogus) (JSVal.vstr pwAda)).2 = DB.init) :=
  ⟨by decide, by decide, by decide, by decide, by decide,
   signup_unconvertible_role_500 DB.init (JSVal.vstr nameAda) (JSVal.vstr emailBob)
     (JSVal.vstr roleBogus) (JSVal.vstr pwAda) (by decide) (by decide)
     (by decide) (by decide) (by decide)⟩
